import Mathlib

/-!
Verification of the bulk SMS dispatch engine of the twilio-sms-hub repository.

The development shallowly embeds the Python source:

* `is_duplicate` — the transport-layer deduplication guard,
  `TwilioService._is_duplicate` in backend/services/twilio_service.py
  (class-level dictionary `_recent_messages`, 5 second window, 30 second
  retention sweep).
* `is_duplicate_request` — the request-layer deduplication guard,
  `is_duplicate_request` in run_app.py (module-level dictionary
  `_global_sms_requests`, 10 second window, 30 second retention sweep,
  lower-cased key, source tag stored only as a diagnostic value).
* `personalize_message` — `CSVProcessor._personalize_message`.
* `format_phone_number` — `CSVProcessor._format_phone_number`; the external
  `phonenumbers` library is a parameter `lib` (parse followed by E164
  formatting, `none` standing for a raised `NumberParseException`).
* `send_sms` — `TwilioService.send_sms`; the network call
  `client.messages.create` is a `GatewayOutcome` parameter, its two
  `except` arms being the `twilioError` and `unexpectedError` outcomes.
* `send_bulk_sms` — `CSVProcessor._send_bulk_sms`, the background batch
  loop.  Note: in the source this function does not parse as written
  (the `try` suite at lines 303-331 dedents at line 334 to the level of
  the `try` itself, while the matching `except` sits at line 362 at the
  level of the enclosing `for`); the embedding follows the only
  consistent reading, with the per-recipient `try` covering lines
  304-361 and the `except` at line 362 handling it, which is also the
  contract stated in the design notes of the specification.

Python dictionaries are embedded as insertion-ordered association lists
(`alookup`, `updateEntry`), `time.time()` values as integers (the
guards only subtract and compare timestamps, so the integral time scale
carries every comparison the source makes), and Python string
truthiness as the test against `""`.
-/

namespace SmsHub

/-- Association-list lookup: first entry whose key matches, mirroring a
Python dictionary read. -/
def alookup {α : Type} (k : String) : List (String × α) → Option α
  | [] => none
  | (k₁, v) :: rest => if k₁ = k then some v else alookup k rest

/-- Association-list write, mirroring Python dictionary assignment: an
existing key keeps its position and gets the new value, a new key is
appended at the end. -/
def updateEntry {α : Type} (k : String) (v : α) (m : List (String × α)) :
    List (String × α) :=
  match alookup k m with
  | some _ => m.map (fun p => if p.1 = k then (k, v) else p)
  | none => m ++ [(k, v)]

/-! ## Transport-layer deduplication guard

`TwilioService._is_duplicate` (backend/services/twilio_service.py,
lines 54-78).  The cache maps `f"{to_number}:{message_body}"` to the
time of the last recorded attempt. -/

/-- Key of the transport-layer cache: `f"{to_number}:{message_body}"`
(twilio_service.py line 60). -/
def transportKey (to_number message_body : String) : String :=
  to_number ++ ":" ++ message_body

/-- Transport-layer guard.  Within 5 seconds of the stored timestamp the
call reports a duplicate and returns the cache untouched (lines 66-70);
otherwise it stores the current time for the key and sweeps entries
older than 30 seconds (lines 72-76), reporting not-duplicate. -/
def is_duplicate (cache : List (String × ℤ)) (now : ℤ)
    (to_number message_body : String) : Bool × List (String × ℤ) :=
  let key := transportKey to_number message_body
  match alookup key cache with
  | some last =>
      if now - last < 5 then (true, cache)
      else
        let c := updateEntry key now cache
        (false, c.filter (fun p => decide (now - p.2 < 30)))
  | none =>
      let c := updateEntry key now cache
      (false, c.filter (fun p => decide (now - p.2 < 30)))

/-! ## Request-layer deduplication guard

`is_duplicate_request` (run_app.py, lines 170-205).  The cache maps
`f"{phone_number.lower()}:{message_body.lower()}"` to the pair
(time of last recorded attempt, source tag). -/

/-- Module-level flag `ENABLE_APP_LEVEL_DEDUP` (run_app.py line 167). -/
def ENABLE_APP_LEVEL_DEDUP : Bool := true

/-- Python `s.lower()` (over the ASCII range the source uses). -/
def strToLower (s : String) : String :=
  ⟨s.data.map Char.toLower⟩

/-- Key of the request-layer cache:
`f"{phone_number.lower()}:{message_body.lower()}"` (run_app.py
line 175).  Both components are lower-cased. -/
def requestKey (phone_number message_body : String) : String :=
  strToLower phone_number ++ ":" ++ strToLower message_body

/-- Request-layer guard.  Within 10 seconds of the stored timestamp the
call reports a duplicate and returns the cache untouched (run_app.py
lines 181-189); otherwise it stores (now, source) for the key and
sweeps entries older than 30 seconds (lines 193-196), reporting
not-duplicate.  With the dedup flag off every call reports
not-duplicate without touching the cache (lines 171-173). -/
def is_duplicate_request (cache : List (String × (ℤ × String))) (now : ℤ)
    (phone_number message_body source : String) :
    Bool × List (String × (ℤ × String)) :=
  if ENABLE_APP_LEVEL_DEDUP = false then (false, cache)
  else
    let key := requestKey phone_number message_body
    match alookup key cache with
    | some last =>
        if now - last.1 < 10 then (true, cache)
        else
          let c := updateEntry key (now, source) cache
          (false, c.filter (fun p => decide (now - p.2.1 < 30)))
    | none =>
        let c := updateEntry key (now, source) cache
        (false, c.filter (fun p => decide (now - p.2.1 < 30)))

/-! ## Message personalizer

`CSVProcessor._personalize_message` (backend/services/csv_processor.py,
lines 421-441) applies Python `str.replace` once per placeholder. -/

/-- One step bound by fuel of the Python `str.replace` scan: leftmost
match of the pattern is replaced and scanning resumes after the
replaced segment; replacement text is never rescanned.  The fuel is
instantiated with the length of the scanned string, which each step
strictly consumes, so the fuel never runs out. -/
def replaceAllAux (rep pat : List Char) : Nat → List Char → List Char
  | 0, s => s
  | _ + 1, [] => []
  | fuel + 1, c :: rest =>
      if pat.isPrefixOf (c :: rest) ∧ pat ≠ [] then
        rep ++ replaceAllAux rep pat fuel ((c :: rest).drop pat.length)
      else
        c :: replaceAllAux rep pat fuel rest

/-- Python `s.replace(pat, rep)` for the non-empty patterns used by the
personalizer. -/
def str_replace (s pat rep : String) : String :=
  ⟨replaceAllAux rep.data pat.data s.data.length s.data⟩

/-- Recipient record as produced by `CSVProcessor.validate_csv_file`
(csv_processor.py lines 68-74): the formatted phone number and the
optional `name` / `custom_field` columns, an absent column arriving as
the empty string. -/
structure Recipient where
  phone_number : String
  name : String
  custom_field : String
deriving DecidableEq, Repr

/-- `CSVProcessor._personalize_message`: substitute `{name}` when the
name field is truthy (non-empty), then `{custom_field}` when that field
is truthy; each substitution is a plain `str.replace` over the current
message text (csv_processor.py lines 432-441). -/
def personalize_message (template : String) (r : Recipient) : String :=
  let message := template
  let message :=
    if r.name ≠ "" then str_replace message "\x7bname\x7d" r.name else message
  let message :=
    if r.custom_field ≠ "" then
      str_replace message "\x7bcustom_field\x7d" r.custom_field
    else message
  message

/-! ## Phone number formatting

`CSVProcessor._format_phone_number` (csv_processor.py lines 126-157).
The `phonenumbers` library call (parse, then E164 format) is the
parameter `lib : String → Option String`, with `none` standing for a
raised `NumberParseException`. -/

/-- `re.sub(r"[^\d+]", "", s)`: keep digits and plus signs. -/
def cleanPhone (s : String) : String :=
  ⟨s.data.filter (fun c => c.isDigit || c = '+')⟩

/-- `re.sub(r"[^\d]", "", s)`: keep digits only. -/
def digitsOnly (s : String) : String :=
  ⟨s.data.filter (fun c => c.isDigit)⟩

/-- Python `s.startswith("+")`. -/
def startsWithPlus (s : String) : Bool :=
  match s.data with
  | c :: _ => c = '+'
  | [] => false

/-- Shape of an E164 string: a plus sign followed by digits only. -/
def isPlusDigits (s : String) : Bool :=
  match s.data with
  | c :: rest => c = '+' && rest.all (fun c => c.isDigit)
  | [] => false

/-- `CSVProcessor._format_phone_number`: clean the input, prepend a plus
sign when the cleaned text lacks one, hand it to the library; if the
library raises, fall back to the raw input (prefixed with a plus sign
over its digits when it had none). -/
def format_phone_number (lib : String → Option String) (phone_number : String) :
    String :=
  let cleaned := cleanPhone phone_number
  let cleaned := if startsWithPlus cleaned then cleaned else "+" ++ cleaned
  match lib cleaned with
  | some formatted => formatted
  | none =>
      if startsWithPlus phone_number then phone_number
      else "+" ++ digitsOnly phone_number

/-! ## Transport service send

`TwilioService.send_sms` (backend/services/twilio_service.py,
lines 80-182).  The result dictionary is embedded as a record of
optional fields, `none` covering both an absent key and a `None`
value. -/

/-- Message object returned by a successful `client.messages.create`
call (twilio_service.py lines 150-166). -/
structure GwMessage where
  sid : String
  status : String
  direction : String
  from_num : String
  to_num : String
  body : String
  price : Option String
  price_unit : Option String
  error_code : Option String
  error_message : Option String
deriving DecidableEq, Repr

/-- Outcome of the network call inside `send_sms`: a created message, a
raised `TwilioException` (handled at lines 168-175), or any other
raised exception (handled at lines 176-182). -/
inductive GatewayOutcome where
  | ok (m : GwMessage)
  | twilioError (code : Option String) (msg : String)
  | unexpectedError (msg : String)
deriving DecidableEq, Repr

/-- Result dictionary of `send_sms`: a `none` field stands for a key
that is absent from the branch or carries `None`. -/
structure SendResult where
  success : Bool
  message_sid : Option String
  status : Option String
  direction : Option String
  from_number : Option String
  to_number : Option String
  message_body : Option String
  price : Option String
  price_unit : Option String
  error_code : Option String
  error_message : Option String
deriving DecidableEq, Repr

/-- `TwilioService.send_sms`: consult the transport-layer guard first
(line 97); a flagged duplicate short-circuits into the sentinel
dictionary of lines 98-110 without any network call; otherwise the
gateway outcome is mapped onto the dictionaries of lines 154-182.  The
function also returns the updated transport-layer cache. -/
def send_sms (from_value : String) (cache : List (String × ℤ)) (now : ℤ)
    (to_number message_body : String) (gw : GatewayOutcome) :
    SendResult × List (String × ℤ) :=
  let dup := is_duplicate cache now to_number message_body
  if dup.1 then
    ({ success := true
       message_sid := some "DUPLICATE_BLOCKED"
       status := some "duplicate_blocked"
       direction := some "outbound"
       from_number := some from_value
       to_number := some to_number
       message_body := some message_body
       price := some "0"
       price_unit := some "USD"
       error_code := none
       error_message := some "Duplicate message blocked by deduplication system" },
     dup.2)
  else
    match gw with
    | .ok m =>
        ({ success := true
           message_sid := some m.sid
           status := some m.status
           direction := some m.direction
           from_number := some m.from_num
           to_number := some m.to_num
           message_body := some m.body
           price := m.price
           price_unit := m.price_unit
           error_code := m.error_code
           error_message := m.error_message },
         dup.2)
    | .twilioError code msg =>
        ({ success := false
           message_sid := none
           status := none
           direction := none
           from_number := none
           to_number := none
           message_body := none
           price := none
           price_unit := none
           error_code := code
           error_message := some msg },
         dup.2)
    | .unexpectedError msg =>
        ({ success := false
           message_sid := none
           status := none
           direction := none
           from_number := none
           to_number := none
           message_body := none
           price := none
           price_unit := none
           error_code := none
           error_message := some msg },
         dup.2)

/-! ## Persistent records

`SMSMessage` and `BulkSMSJob` rows (backend/database.py, lines 20-51).
Only the fields the dispatcher writes are carried. -/

/-- An `sms_messages` row as created by the batch loop. -/
structure MsgRecord where
  message_sid : Option String
  from_number : String
  to_number : String
  message_body : String
  status : String
  direction : String
  cost : Option String
  error_code : Option String
  error_message : Option String
deriving DecidableEq, Repr

/-- A `bulk_sms_jobs` row. -/
structure JobRecord where
  job_id : String
  filename : String
  total_count : ℕ
  sent_count : ℕ
  failed_count : ℕ
  status : String
  message_template : String
  completed_at : Option ℤ
  error_message : Option String
deriving DecidableEq, Repr

/-- Column default of `BulkSMSJob.status` (database.py line 48). -/
def bulkJobStatusColumnDefault : String := "pending"

/-- `CSVProcessor.process_bulk_sms` creates the job row with
`status="processing"` (csv_processor.py lines 194-200) before spawning
the background task; no send has been attempted yet at that point. -/
def process_bulk_sms_job (job_id filename message_template : String)
    (total_count : ℕ) : JobRecord :=
  { job_id := job_id
    filename := filename
    total_count := total_count
    sent_count := 0
    failed_count := 0
    status := "processing"
    message_template := message_template
    completed_at := none
    error_message := none }

/-- The persistent store: appended message rows and the job rows.
`db.add` is embedded as an immediate append and `db.commit` as the
identity (the per-batch commit failure handler of csv_processor.py
lines 380-384 only logs). -/
structure Db where
  messages : List MsgRecord
  jobs : List JobRecord
deriving DecidableEq, Repr

/-- `db.query(BulkSMSJob).filter(BulkSMSJob.job_id == jid).first()`
followed by a field update: every row carrying the job id is rewritten
(job ids are unique), a missing row leaves the table unchanged, which
is the `if bulk_job:` guard of the source. -/
def updateJobIn (jobs : List JobRecord) (jid : String)
    (f : JobRecord → JobRecord) : List JobRecord :=
  jobs.map (fun j => if j.job_id = jid then f j else j)

/-! ## The batch loop

`CSVProcessor._send_bulk_sms` (csv_processor.py lines 226-419), under
the consistent reading of the malformed per-recipient `try` block (see
the module comment). -/

/-- Environment of one run: the phone library model, the sender value
of the service, whether the `run_app` module with its request-layer
checker is importable at lines 313-317 (when it is not, the inner
`except` at line 321 merely logs and the send proceeds), and whether a
service handle is available — either passed into the task or found on
the `run_app` module by the fallback of lines 250-268. -/
structure RunConfig where
  lib : String → Option String
  from_value : String
  checkerAvailable : Bool
  serviceAvailable : Bool

/-- What happens when one recipient is processed: either the body runs
and the network call (if reached) has the given outcome, or some
statement of the per-recipient body raises and control reaches the
`except` arm at line 362. -/
inductive RecipEvent where
  | proceed (gw : GatewayOutcome)
  | raises (msg : String)

/-- Mutable state threaded through one run of the batch loop: both
deduplication caches, the store, and the two counters of
csv_processor.py lines 237-238. -/
structure EngineState where
  reqCache : List (String × (ℤ × String))
  transCache : List (String × ℤ)
  db : Db
  sent_count : ℕ
  failed_count : ℕ
deriving Repr

/-- The `sms_messages` row built at csv_processor.py lines 335-345 from
a send result: missing `status` defaults to `"failed"`, missing
`from_number` to `""`, and the cost is the price when that value is
truthy. -/
def recordOfResult (result : SendResult) (phone_number message_body : String) :
    MsgRecord :=
  { message_sid := result.message_sid
    from_number := result.from_number.getD ""
    to_number := phone_number
    message_body := message_body
    status := result.status.getD "failed"
    direction := "outbound"
    cost := match result.price with
      | some p => if p ≠ "" then some p else none
      | none => none
    error_code := result.error_code
    error_message := result.error_message }

/-- The failed `sms_messages` row of the `except` arm
(csv_processor.py lines 366-377): raw recipient number, the template as
body, status `"failed"`, and the exception text. -/
def recordOfRaise (r : Recipient) (message_template msg : String) : MsgRecord :=
  { message_sid := none
    from_number := ""
    to_number := r.phone_number
    message_body := message_template
    status := "failed"
    direction := "outbound"
    cost := none
    error_code := none
    error_message := some msg }

/-- Body of `for i, recipient in enumerate(batch)` (csv_processor.py
lines 302-377): format the number, personalize the template, consult
the request-layer guard — a flagged duplicate counts as sent and skips
the rest (lines 317-320) — otherwise send, record the attempt unless it
was blocked at the transport layer (lines 333-348), and bump the
matching counter (lines 350-355).  A raised exception lands in the
`except` arm, appending a failed row and bumping the failed counter. -/
def processRecipient (cfg : RunConfig) (message_template : String)
    (st : EngineState) (now : ℤ) (r : Recipient) (ev : RecipEvent) :
    EngineState :=
  match ev with
  | .raises msg =>
      { st with
        failed_count := st.failed_count + 1
        db := { st.db with
                messages := st.db.messages ++ [recordOfRaise r message_template msg] } }
  | .proceed gw =>
      let phone_number := format_phone_number cfg.lib r.phone_number
      let message_body := personalize_message message_template r
      let dupChk :=
        if cfg.checkerAvailable then
          is_duplicate_request st.reqCache now phone_number message_body
            "bulk_sms_background"
        else (false, st.reqCache)
      if dupChk.1 then
        { st with reqCache := dupChk.2, sent_count := st.sent_count + 1 }
      else
        let sent := send_sms cfg.from_value st.transCache now phone_number
          message_body gw
        let result := sent.1
        let st := { st with reqCache := dupChk.2, transCache := sent.2 }
        let st :=
          if result.status ≠ some "duplicate_blocked" then
            { st with
              db := { st.db with
                      messages := st.db.messages ++
                        [recordOfResult result phone_number message_body] } }
          else st
        if result.success then { st with sent_count := st.sent_count + 1 }
        else { st with failed_count := st.failed_count + 1 }

/-- Dynamic batch size `min(100, max(10, len(recipients) // 20))`
(csv_processor.py line 282). -/
def batchSize (total : ℕ) : ℕ := min 100 (max 10 (total / 20))

/-- Per-batch progress write (csv_processor.py lines 387-395): the job
row gets the current counters. -/
def batchUpdate (jid : String) (st : EngineState) : EngineState :=
  { st with
    db := { st.db with
            jobs := updateJobIn st.db.jobs jid (fun j =>
              { j with sent_count := st.sent_count,
                       failed_count := st.failed_count }) } }

/-- The nested batch loop of csv_processor.py lines 294-400, flattened
over the global recipient index `k`: each recipient is processed at the
time `times k` with the event `evs k`, and the per-batch commit and
progress write run at every batch boundary (a multiple of the batch
size, or the end of the list). -/
def runLoop (cfg : RunConfig) (message_template jid : String) (bsz : ℕ)
    (times : ℕ → ℤ) (evs : ℕ → RecipEvent) :
    ℕ → EngineState → List Recipient → EngineState
  | _, st, [] => st
  | k, st, r :: rest =>
      let st := processRecipient cfg message_template st (times k) r (evs k)
      let st :=
        if (k + 1) % bsz = 0 ∨ rest = [] then batchUpdate jid st else st
      runLoop cfg message_template jid bsz times evs (k + 1) st rest

/-- `CSVProcessor._send_bulk_sms`.  Without a service handle the branch
at csv_processor.py lines 271-278 runs `job.status =
BulkSMSJobStatus.FAILED`, a reference to a name that is not defined in
the module, so a `NameError` is raised and the outer handler at lines
411-419 marks the job `"failed"` and stamps the completion time (the
`error_message` assignment at line 276 is never reached).  With a
service the batch loop runs and the job is then marked `"completed"`
with the completion time (lines 402-407). -/
def send_bulk_sms (cfg : RunConfig) (jid : String) (recipients : List Recipient)
    (message_template : String) (times : ℕ → ℤ) (evs : ℕ → RecipEvent)
    (tEnd : ℤ) (st₀ : EngineState) : EngineState :=
  if cfg.serviceAvailable = false then
    { st₀ with
      db := { st₀.db with
              jobs := updateJobIn st₀.db.jobs jid (fun j =>
                { j with status := "failed", completed_at := some tEnd }) } }
  else
    let st := runLoop cfg message_template jid (batchSize recipients.length)
      times evs 0 st₀ recipients
    { st with
      db := { st.db with
              jobs := updateJobIn st.db.jobs jid (fun j =>
                { j with status := "completed", completed_at := some tEnd }) } }

/-! ## Sample data for concrete runs -/

/-- Model instance of the external phone library for concrete runs: an
input already in E164 shape is returned unchanged, anything else
raises.  (A model only — the real library also rewrites some inputs of
that shape, e.g. by stripping national trunk prefixes.) -/
def sampleLib : String → Option String :=
  fun s => if isPlusDigits s then some s else none

/-- Run environment with service and request-layer checker available. -/
def sampleCfg : RunConfig := ⟨sampleLib, "+15550000000", true, true⟩

/-- Run environment whose service handle is absent (and the fallback on
the `run_app` module also finds none). -/
def sampleCfgNoSvc : RunConfig := ⟨sampleLib, "+15550000000", true, false⟩

/-- One validated recipient row. -/
def sampleRecipient : Recipient := ⟨"+15551234567", "Bob", ""⟩

/-- Template of the sample job. -/
def sampleTemplate : String := "Hi \x7bname\x7d"

/-- The sample job row as `process_bulk_sms` creates it. -/
def sampleJob : JobRecord :=
  process_bulk_sms_job "job1" "contacts.csv" sampleTemplate 2

/-- Store holding just the sample job. -/
def sampleDb : Db := ⟨[], [sampleJob]⟩

/-- Engine state at the start of the sample run: empty caches, the
sample store, zero counters. -/
def sampleState : EngineState := ⟨[], [], sampleDb, 0, 0⟩

/-- Gateway message object of a successful sample send. -/
def sampleGwMessage : GwMessage :=
  ⟨"SM1", "queued", "outbound-api", "+15550000000", "+15551234567",
   "Hi Bob", some "0.01", some "USD", none, none⟩

/-- Every gateway call of the sample run succeeds. -/
def sampleEvs : ℕ → RecipEvent := fun _ => .proceed (.ok sampleGwMessage)

/-- Every gateway call of this run raises a `TwilioException`. -/
def sampleEvsFail : ℕ → RecipEvent :=
  fun _ => .proceed (.twilioError (some "21211") "Invalid number")

/-- One recipient processed per second. -/
def sampleTimes : ℕ → ℤ := fun k => k

/-- Sample run: the same recipient twice, one second apart, all gateway
calls succeeding — the second occurrence is flagged by the
request-layer guard. -/
def sampleRun : EngineState :=
  send_bulk_sms sampleCfg "job1" [sampleRecipient, sampleRecipient]
    sampleTemplate sampleTimes sampleEvs 10 sampleState

/-- Engine state whose request-layer cache already holds the key of the
sample recipient and template, recorded at time 0. -/
def sampleDupState : EngineState :=
  ⟨[("+15551234567:hi bob", (0, "x"))], [], sampleDb, 0, 0⟩

/-! # Theorems

First the association-list and guard lemmas shared by the claims. -/

/-- A key that fails to look up heads no entry of the list. -/
theorem alookup_eq_none {α : Type} {k : String} {m : List (String × α)}
    (h : alookup k m = none) : ∀ p ∈ m, p.1 ≠ k := by
  induction m with
  | nil => intro p hp; cases hp
  | cons q rest ih =>
      intro p hp
      obtain ⟨k₁, v⟩ := q
      by_cases hk : k₁ = k
      · simp [alookup, hk] at h
      · rcases List.mem_cons.mp hp with hp | hp
        · rw [hp]; simpa using hk
        · exact ih (by simpa [alookup, hk] using h) p hp

/-- Rewriting every entry of the looked-up key makes the new value the
one found. -/
theorem alookup_map_update {α : Type} {k : String} (v : α)
    {m : List (String × α)} {w : α} (h : alookup k m = some w) :
    alookup k (m.map (fun p => if p.1 = k then (k, v) else p)) = some v := by
  induction m with
  | nil => simp [alookup] at h
  | cons q rest ih =>
      obtain ⟨k₁, u⟩ := q
      by_cases hk : k₁ = k
      · subst hk
        rw [List.map_cons]
        have hhead : (if ((k₁, u) : String × α).1 = k₁ then (k₁, v)
            else (k₁, u)) = (k₁, v) := by simp
        rw [hhead]
        simp [alookup]
      · have hrest : alookup k rest = some w := by simpa [alookup, hk] using h
        rw [List.map_cons]
        have hhead : (if ((k₁, u) : String × α).1 = k then (k, v)
            else (k₁, u)) = (k₁, u) := by simp [hk]
        rw [hhead]
        simpa [alookup, hk] using ih hrest

/-- Appending an entry for a key absent from the list makes its value
the one found. -/
theorem alookup_append_self {α : Type} {k : String} (v : α)
    {m : List (String × α)} (h : alookup k m = none) :
    alookup k (m ++ [(k, v)]) = some v := by
  induction m with
  | nil => simp [alookup]
  | cons q rest ih =>
      obtain ⟨k₁, u⟩ := q
      by_cases hk : k₁ = k
      · simp [alookup, hk] at h
      · have hrest : alookup k rest = none := by simpa [alookup, hk] using h
        simpa [alookup, hk] using ih hrest

/-- Dictionary assignment makes the assigned value the one found. -/
theorem alookup_updateEntry_self {α : Type} (k : String) (v : α)
    (m : List (String × α)) : alookup k (updateEntry k v m) = some v := by
  rcases h : alookup k m with _ | w
  · simp only [updateEntry, h]
    exact alookup_append_self v h
  · simp only [updateEntry, h]
    exact alookup_map_update v h

/-- After dictionary assignment, every entry holding the assigned key
holds the assigned value. -/
theorem mem_updateEntry_key {α : Type} {k : String} {v : α}
    {m : List (String × α)} :
    ∀ p ∈ updateEntry k v m, p.1 = k → p = (k, v) := by
  intro p hp hpk
  rcases h : alookup k m with _ | w
  · simp only [updateEntry, h] at hp
    rcases List.mem_append.mp hp with hp | hp
    · exact absurd hpk (alookup_eq_none h p hp)
    · simpa using hp
  · simp only [updateEntry, h] at hp
    obtain ⟨q, hq, rfl⟩ := List.mem_map.mp hp
    by_cases hqk : q.1 = k
    · simp [hqk]
    · rw [if_neg hqk] at hpk
      exact absurd hpk hqk

/-- Lookup survives a filter that keeps the looked-up entry, when every
entry of the key carries the same value. -/
theorem alookup_filter_all {α : Type} {k : String} {v : α}
    {f : String × α → Bool} {m : List (String × α)}
    (hm : ∀ p ∈ m, p.1 = k → p = (k, v)) (hl : alookup k m = some v)
    (hf : f (k, v) = true) : alookup k (m.filter f) = some v := by
  induction m with
  | nil => simp [alookup] at hl
  | cons q rest ih =>
      obtain ⟨k₁, u⟩ := q
      by_cases hk : k₁ = k
      · have hq : (k₁, u) = (k, v) := hm _ (by simp) hk
        cases hq
        simp [List.filter_cons, hf, alookup]
      · have hrest : alookup k rest = some v := by simpa [alookup, hk] using hl
        have hmrest : ∀ p ∈ rest, p.1 = k → p = (k, v) := by
          intro p hp; exact hm p (List.mem_cons_of_mem _ hp)
        by_cases hfk : f (k₁, u) = true
        · simp only [List.filter_cons, hfk, if_pos]
          simpa [alookup, hk] using ih hmrest hrest
        · simp only [List.filter_cons, hfk]
          simpa using ih hmrest hrest

/-- Lookup after a dictionary assignment followed by a sweep that keeps
the assigned entry. -/
theorem alookup_update_filter {α : Type} (k : String) (v : α)
    (m : List (String × α)) {f : String × α → Bool} (hf : f (k, v) = true) :
    alookup k ((updateEntry k v m).filter f) = some v :=
  alookup_filter_all mem_updateEntry_key (alookup_updateEntry_self k v m) hf

/-- A not-duplicate transport-layer call leaves its own timestamp
stored under its key. -/
theorem is_duplicate_false_lookup {c c₁ : List (String × ℤ)} {t : ℤ}
    {to_number body : String}
    (h : is_duplicate c t to_number body = (false, c₁)) :
    alookup (transportKey to_number body) c₁ = some t := by
  rcases hl : alookup (transportKey to_number body) c with _ | last
  · simp only [is_duplicate, hl, Prod.mk.injEq] at h
    rw [← h.2]
    exact alookup_update_filter _ _ _ (by simp)
  · simp only [is_duplicate, hl] at h
    by_cases hw : t - last < 5
    · simp [hw] at h
    · simp only [hw, if_false, Prod.mk.injEq] at h
      rw [← h.2]
      exact alookup_update_filter _ _ _ (by simp)

/-- A not-duplicate request-layer call leaves its own timestamp and
source stored under its key. -/
theorem is_duplicate_request_false_lookup
    {c c₁ : List (String × ℤ × String)} {t : ℤ} {p b s : String}
    (h : is_duplicate_request c t p b s = (false, c₁)) :
    alookup (requestKey p b) c₁ = some (t, s) := by
  rcases hl : alookup (requestKey p b) c with _ | last
  · simp only [is_duplicate_request, ENABLE_APP_LEVEL_DEDUP, hl,
      Bool.true_eq_false, if_false, Prod.mk.injEq] at h
    rw [← h.2]
    exact alookup_update_filter _ _ _ (by simp)
  · simp only [is_duplicate_request, ENABLE_APP_LEVEL_DEDUP, hl,
      Bool.true_eq_false, if_false] at h
    by_cases hw : t - last.1 < 10
    · simp [hw] at h
    · simp only [hw, if_false, Prod.mk.injEq] at h
      rw [← h.2]
      exact alookup_update_filter _ _ _ (by simp)

/-- A duplicate-reporting transport-layer call returns the cache
untouched. -/
theorem is_duplicate_true_state {c : List (String × ℤ)} {t : ℤ}
    {to_number body : String}
    (h : (is_duplicate c t to_number body).1 = true) :
    (is_duplicate c t to_number body).2 = c := by
  rcases hl : alookup (transportKey to_number body) c with _ | last
  · simp [is_duplicate, hl] at h
  · simp only [is_duplicate, hl] at h ⊢
    by_cases hw : t - last < 5
    · simp [hw]
    · simp [hw] at h

/-- A duplicate-reporting request-layer call returns the cache
untouched. -/
theorem is_duplicate_request_true_state {c : List (String × ℤ × String)}
    {t : ℤ} {p b s : String}
    (h : (is_duplicate_request c t p b s).1 = true) :
    (is_duplicate_request c t p b s).2 = c := by
  rcases hl : alookup (requestKey p b) c with _ | last
  · simp [is_duplicate_request, ENABLE_APP_LEVEL_DEDUP, hl] at h
  · simp only [is_duplicate_request, ENABLE_APP_LEVEL_DEDUP, hl,
      Bool.true_eq_false, if_false] at h ⊢
    by_cases hw : t - last.1 < 10
    · simp [hw]
    · simp [hw] at h

/-! ## Claim C4 — the deduplication windows -/

/-- C4: for each guard (transport layer, 5 s window; request layer,
10 s window), after a call that recorded its timestamp (reported
not-duplicate), an identical call within the window reports duplicate
and returns the cache — hence the stored timestamp — unchanged, and an
identical call made once the window has elapsed since the first call
reports not-duplicate. -/
theorem C4_dedup_window_ok :
    (∀ (c₀ c₁ : List (String × ℤ)) (t₀ t₁ t₂ : ℤ) (to_number body : String),
      is_duplicate c₀ t₀ to_number body = (false, c₁) →
      (t₁ - t₀ < 5 → is_duplicate c₁ t₁ to_number body = (true, c₁)) ∧
      (5 ≤ t₂ - t₀ → (is_duplicate c₁ t₂ to_number body).1 = false)) ∧
    (∀ (c₀ c₁ : List (String × ℤ × String)) (t₀ t₁ t₂ : ℤ)
      (p b s₀ s₁ s₂ : String),
      is_duplicate_request c₀ t₀ p b s₀ = (false, c₁) →
      (t₁ - t₀ < 10 → is_duplicate_request c₁ t₁ p b s₁ = (true, c₁)) ∧
      (10 ≤ t₂ - t₀ → (is_duplicate_request c₁ t₂ p b s₂).1 = false)) := by
  constructor
  · intro c₀ c₁ t₀ t₁ t₂ to_number body h
    have hl := is_duplicate_false_lookup h
    constructor
    · intro hw
      simp [is_duplicate, hl, hw]
    · intro hw
      have hnw : ¬ (t₂ - t₀ < 5) := by omega
      simp [is_duplicate, hl, hnw]
  · intro c₀ c₁ t₀ t₁ t₂ p b s₀ s₁ s₂ h
    have hl := is_duplicate_request_false_lookup h
    constructor
    · intro hw
      simp [is_duplicate_request, ENABLE_APP_LEVEL_DEDUP, hl, hw]
    · intro hw
      have hnw : ¬ (t₂ - t₀ < 10) := by omega
      simp [is_duplicate_request, ENABLE_APP_LEVEL_DEDUP, hl, hnw]

/-- Witness for C4 at concrete inputs: first calls at time 0, repeat
calls at 3 and 7 seconds (transport, 5 s window) and at 9 and 11
seconds (request, 10 s window). -/
theorem C4_dedup_window_witness :
    (is_duplicate [("+15551234567:hi", 0)] 3 "+15551234567" "hi"
      = (true, [("+15551234567:hi", 0)])) ∧
    ((is_duplicate [("+15551234567:hi", 0)] 7 "+15551234567" "hi").1
      = false) ∧
    (is_duplicate_request [("p:hello", (0, "a"))] 9 "P" "Hello" "b"
      = (true, [("p:hello", (0, "a"))])) ∧
    ((is_duplicate_request [("p:hello", (0, "a"))] 11 "P" "Hello" "c").1
      = false) :=
  ⟨(C4_dedup_window_ok.1 [] [("+15551234567:hi", 0)] 0 3 7
      "+15551234567" "hi" (by decide)).1 (by decide),
   (C4_dedup_window_ok.1 [] [("+15551234567:hi", 0)] 0 3 7
      "+15551234567" "hi" (by decide)).2 (by decide),
   (C4_dedup_window_ok.2 [] [("p:hello", (0, "a"))] 0 9 11
      "P" "Hello" "a" "b" "c" (by decide)).1 (by decide),
   (C4_dedup_window_ok.2 [] [("p:hello", (0, "a"))] 0 9 11
      "P" "Hello" "a" "b" "c" (by decide)).2 (by decide)⟩

/-! ## Claim C6 — eviction of stale entries -/

/-- A filtered list passes its own filter. -/
theorem all_filter_self {α : Type} (f : α → Bool) (l : List α) :
    (l.filter f).all f = true :=
  List.all_eq_true.mpr (fun _ hx => List.of_mem_filter hx)

/-- Counterexample to C6: a transport-layer cache holding a fresh entry
(35 s) and a stale one (0 s); the call at 36 s on the fresh key reports
duplicate and returns the cache untouched, so the stale entry — 36
seconds old, beyond the 30-second retention window — is not evicted. -/
theorem C6_eviction_counterexample :
    (is_duplicate [("+15551234567:hi", 35), ("+15559999999:old", 0)] 36
      "+15551234567" "hi").1 = true ∧
    (is_duplicate [("+15551234567:hi", 35), ("+15559999999:old", 0)] 36
      "+15551234567" "hi").2
      = [("+15551234567:hi", 35), ("+15559999999:old", 0)] ∧
    alookup "+15559999999:old"
      (is_duplicate [("+15551234567:hi", 35), ("+15559999999:old", 0)] 36
        "+15551234567" "hi").2 = some 0 ∧
    ¬ ((36 : ℤ) - 0 < 30) := by decide

/-- C6 amended: a call that reports not-duplicate leaves only entries
younger than the 30-second retention window in the cache; a call that
reports duplicate returns at the immediate check and leaves the cache —
stale entries included — untouched.  Both guards behave this way. -/
theorem C6_eviction_ok :
    (∀ (c : List (String × ℤ)) (now : ℤ) (to_number body : String),
      ((is_duplicate c now to_number body).1 = false →
        ((is_duplicate c now to_number body).2.all
          (fun p => decide (now - p.2 < 30))) = true) ∧
      ((is_duplicate c now to_number body).1 = true →
        (is_duplicate c now to_number body).2 = c)) ∧
    (∀ (c : List (String × ℤ × String)) (now : ℤ) (p b s : String),
      ((is_duplicate_request c now p b s).1 = false →
        ((is_duplicate_request c now p b s).2.all
          (fun e => decide (now - e.2.1 < 30))) = true) ∧
      ((is_duplicate_request c now p b s).1 = true →
        (is_duplicate_request c now p b s).2 = c)) := by
  constructor
  · intro c now to_number body
    refine ⟨?_, fun h => is_duplicate_true_state h⟩
    intro hfalse
    rcases hl : alookup (transportKey to_number body) c with _ | last
    · simp only [is_duplicate, hl]
      exact all_filter_self _ _
    · by_cases hw : now - last < 5
      · simp [is_duplicate, hl, hw] at hfalse
      · simp only [is_duplicate, hl, hw, if_false]
        exact all_filter_self _ _
  · intro c now p b s
    refine ⟨?_, fun h => is_duplicate_request_true_state h⟩
    intro hfalse
    rcases hl : alookup (requestKey p b) c with _ | last
    · simp only [is_duplicate_request, ENABLE_APP_LEVEL_DEDUP,
        Bool.true_eq_false, if_false, hl]
      exact all_filter_self _ _
    · by_cases hw : now - last.1 < 10
      · simp [is_duplicate_request, ENABLE_APP_LEVEL_DEDUP, hl, hw] at hfalse
      · simp only [is_duplicate_request, ENABLE_APP_LEVEL_DEDUP,
          Bool.true_eq_false, if_false, hl, hw]
        exact all_filter_self _ _

/-- Witness for the amended C6: on the two-entry cache of the
counterexample, a not-duplicate call at 36 s sweeps every entry at
least 30 seconds old, while the duplicate-reporting call leaves the
cache untouched. -/
theorem C6_eviction_witness :
    ((is_duplicate [("+15551234567:hi", 35), ("+15559999999:old", 0)] 36
        "+15550001111" "x").2.all
      (fun p => decide ((36 : ℤ) - p.2 < 30))) = true ∧
    (is_duplicate [("+15551234567:hi", 35), ("+15559999999:old", 0)] 36
        "+15551234567" "hi").2
      = [("+15551234567:hi", 35), ("+15559999999:old", 0)] :=
  ⟨(C6_eviction_ok.1 [("+15551234567:hi", 35), ("+15559999999:old", 0)]
      36 "+15550001111" "x").1 (by decide),
   (C6_eviction_ok.1 [("+15551234567:hi", 35), ("+15559999999:old", 0)]
      36 "+15551234567" "hi").2 (by decide)⟩

/-! ## Claim C7 — the deduplication key -/

/-- Counterexample to C7: at the request layer two calls whose bodies
differ only in letter case land on the same lower-cased key, so the
second call is treated as a duplicate of the first. -/
theorem C7_key_counterexample :
    "Hello" ≠ "hello" ∧
    (is_duplicate_request [] 0 "P" "Hello" "a").1 = false ∧
    (is_duplicate_request (is_duplicate_request [] 0 "P" "Hello" "a").2 1
      "P" "hello" "b").1 = true := by decide

/-- The request-layer write-and-sweep, projected onto (key, timestamp),
does not depend on the stored source tag. -/
theorem update_filter_src_indep (k : String) (t now : ℤ) (s₁ s₂ : String)
    (c : List (String × ℤ × String)) :
    ((updateEntry k (t, s₁) c).filter
        (fun e => decide (now - e.2.1 < 30))).map (fun e => (e.1, e.2.1))
    = ((updateEntry k (t, s₂) c).filter
        (fun e => decide (now - e.2.1 < 30))).map (fun e => (e.1, e.2.1)) := by
  rcases hl : alookup k c with _ | w
  · simp only [updateEntry, hl]
    by_cases hkeep : now - t < 30 <;>
      simp [List.filter_append, hkeep]
  · simp only [updateEntry, hl]
    rw [List.filter_map, List.filter_map, List.map_map, List.map_map]
    have hf : ((fun e : String × ℤ × String => decide (now - e.2.1 < 30)) ∘
        (fun p => if p.1 = k then (k, (t, s₁)) else p))
        = ((fun e : String × ℤ × String => decide (now - e.2.1 < 30)) ∘
        (fun p => if p.1 = k then (k, (t, s₂)) else p)) := by
      funext p
      by_cases hp : p.1 = k <;> simp [hp]
    have hproj : ((fun e : String × ℤ × String => (e.1, e.2.1)) ∘
        (fun p => if p.1 = k then (k, (t, s₁)) else p))
        = ((fun e : String × ℤ × String => (e.1, e.2.1)) ∘
        (fun p => if p.1 = k then (k, (t, s₂)) else p)) := by
      funext p
      by_cases hp : p.1 = k <;> simp [hp]
    rw [hf, hproj]

/-- C7 amended: the transport-layer key is exactly the pair of identity
and verbatim body — keys agree precisely when the bodies do — while the
request-layer key lower-cases both components, so calls whose
identities and bodies agree up to letter case are the same duplicate
event there; the source tag is stored for diagnostics only and affects
neither the decision nor the recorded timestamps. -/
theorem C7_key_ok :
    (∀ (c : List (String × ℤ × String)) (now : ℤ) (p b s₁ s₂ : String),
      (is_duplicate_request c now p b s₁).1
        = (is_duplicate_request c now p b s₂).1 ∧
      (is_duplicate_request c now p b s₁).2.map (fun e => (e.1, e.2.1))
        = (is_duplicate_request c now p b s₂).2.map (fun e => (e.1, e.2.1))) ∧
    (∀ (c : List (String × ℤ × String)) (now : ℤ) (p p₁ b b₁ s : String),
      strToLower p = strToLower p₁ → strToLower b = strToLower b₁ →
      is_duplicate_request c now p b s = is_duplicate_request c now p₁ b₁ s) ∧
    (∀ to_number b₁ b₂ : String,
      transportKey to_number b₁ = transportKey to_number b₂ ↔ b₁ = b₂) := by
  refine ⟨?_, ?_, ?_⟩
  · intro c now p b s₁ s₂
    rcases hl : alookup (requestKey p b) c with _ | last
    · constructor
      · simp [is_duplicate_request, ENABLE_APP_LEVEL_DEDUP, hl]
      · simp only [is_duplicate_request, ENABLE_APP_LEVEL_DEDUP,
          Bool.true_eq_false, if_false, hl]
        exact update_filter_src_indep _ _ _ _ _ _
    · by_cases hw : now - last.1 < 10
      · constructor <;>
          simp [is_duplicate_request, ENABLE_APP_LEVEL_DEDUP, hl, hw]
      · constructor
        · simp [is_duplicate_request, ENABLE_APP_LEVEL_DEDUP, hl, hw]
        · simp only [is_duplicate_request, ENABLE_APP_LEVEL_DEDUP,
            Bool.true_eq_false, if_false, hl, hw]
          exact update_filter_src_indep _ _ _ _ _ _
  · intro c now p p₁ b b₁ s hp hb
    have hk : requestKey p b = requestKey p₁ b₁ := by
      simp [requestKey, hp, hb]
    simp only [is_duplicate_request, hk]
  · intro to_number b₁ b₂
    constructor
    · intro h
      have hd := congrArg String.data h
      simp only [transportKey, String.data_append] at hd
      exact String.ext (List.append_cancel_left hd)
    · intro h
      rw [h]

/-- Witness for the amended C7: lower-casing the identity and body does
not change the request-layer call, and the transport-layer keys of two
different bodies differ. -/
theorem C7_key_witness :
    is_duplicate_request [] 0 "P" "Hello" "x"
      = is_duplicate_request [] 0 "p" "hello" "x" ∧
    (transportKey "+15551234567" "Hello" = transportKey "+15551234567" "hello"
      ↔ ("Hello" : String) = "hello") :=
  ⟨C7_key_ok.2.1 [] 0 "P" "p" "Hello" "hello" "x" (by decide) (by decide),
   C7_key_ok.2.2 "+15551234567" "Hello" "hello"⟩

/-! ## Claim C5 — the message personalizer -/

/-- Replacing the name placeholder in the sample template keeps the
substituted value verbatim: the scan never rescans replacement text. -/
theorem str_replace_name_template (v : String) :
    str_replace "Hi \x7bname\x7d" "\x7bname\x7d" v = "Hi " ++ v := by
  apply String.ext
  simp [str_replace, replaceAllAux, String.data_append]

/-- Replacing the custom-field placeholder in the injected template
keeps the substituted value verbatim. -/
theorem str_replace_custom_template (v : String) :
    str_replace "Hi \x7bcustom_field\x7d" "\x7bcustom_field\x7d" v
      = "Hi " ++ v := by
  apply String.ext
  simp [str_replace, replaceAllAux, String.data_append]

/-- Counterexample to C5: the name substitution runs first, so a name
value consisting of the text of the custom-field placeholder is itself
substituted by the later custom-field replacement — the output is
`"Hi GOT"`, not the `"Hi \x7bcustom_field\x7d"` the claim calls for. -/
theorem C5_personalize_counterexample :
    personalize_message "Hi \x7bname\x7d"
      ⟨"+15551234567", "\x7bcustom_field\x7d", "GOT"⟩ = "Hi GOT" ∧
    personalize_message "Hi \x7bname\x7d"
      ⟨"+15551234567", "\x7bcustom_field\x7d", "GOT"⟩
      ≠ "Hi \x7bcustom_field\x7d" := by decide

/-- C5 amended: placeholders whose fields are absent or empty stay
verbatim, and a substituted value is plain text within its own
replacement — even one full of braces is emitted unchanged and never
rescanned by that replacement; but the name substitution runs before
the custom-field one, so name text that spells the custom-field
placeholder is substituted by that later replacement. -/
theorem C5_personalize_ok :
    (∀ (template phone : String),
      personalize_message template ⟨phone, "", ""⟩ = template) ∧
    (∀ (phone v : String), v ≠ "" →
      personalize_message "Hi \x7bname\x7d" ⟨phone, v, ""⟩ = "Hi " ++ v) ∧
    (∀ (phone c : String), c ≠ "" →
      personalize_message "Hi \x7bname\x7d"
        ⟨phone, "\x7bcustom_field\x7d", c⟩ = "Hi " ++ c) := by
  refine ⟨?_, ?_, ?_⟩
  · intro template phone
    simp [personalize_message]
  · intro phone v hv
    simp only [personalize_message]
    rw [if_neg (by simp : ¬ ("" : String) ≠ "")]
    rw [if_pos hv]
    exact str_replace_name_template v
  · intro phone c hc
    simp only [personalize_message]
    rw [if_pos (by decide : ("\x7bcustom_field\x7d" : String) ≠ "")]
    rw [str_replace_name_template "\x7bcustom_field\x7d"]
    rw [if_pos hc]
    exact str_replace_custom_template c

/-- Witness for the amended C5: an empty recipient leaves the template
untouched; a brace-laden name value is substituted verbatim; a name
value spelling the custom-field placeholder is then substituted by the
later replacement. -/
theorem C5_personalize_witness :
    personalize_message "Hi \x7bname\x7d" ⟨"+15551234567", "", ""⟩
      = "Hi \x7bname\x7d" ∧
    personalize_message "Hi \x7bname\x7d"
      ⟨"+15551234567", "Bob \x7bx\x7d", ""⟩ = "Hi Bob \x7bx\x7d" ∧
    personalize_message "Hi \x7bname\x7d"
      ⟨"+15551234567", "\x7bcustom_field\x7d", "GOT"⟩ = "Hi GOT" :=
  ⟨C5_personalize_ok.1 "Hi \x7bname\x7d" "+15551234567",
   C5_personalize_ok.2.1 "+15551234567" "Bob \x7bx\x7d" (by decide),
   C5_personalize_ok.2.2 "+15551234567" "GOT" (by decide)⟩

/-! ## Claim C3 — job status at creation -/

/-- Counterexample to C3: the job row `process_bulk_sms` creates —
before any send attempt — carries status `"processing"`, not the
`"pending"` the claim states. -/
theorem C3_pending_counterexample :
    (process_bulk_sms_job "job1" "contacts.csv" "Hello" 3).status
      = "processing" ∧
    (process_bulk_sms_job "job1" "contacts.csv" "Hello" 3).status
      ≠ "pending" := by decide

/-- C3 amended: `"pending"` is only the column default of the job
table; the Scheduler itself creates every job row directly with status
`"processing"`, before any send attempt, so no scheduler-created job is
ever stored as `"pending"`. -/
theorem C3_pending_ok :
    (∀ (jid filename template : String) (n : ℕ),
      (process_bulk_sms_job jid filename template n).status
        = "processing") ∧
    bulkJobStatusColumnDefault = "pending" :=
  ⟨fun _ _ _ _ => rfl, rfl⟩

/-! ## Claim C10 — the send result dictionary -/

/-- C10: `send_sms` is total over every gateway outcome (no exception
escapes — both `except` arms of the source yield result dictionaries);
a transport-layer duplicate reports success with the sentinel message
id and status, and either kind of raised exception reports failure with
the exception text and a null message id. -/
theorem C10_send_sms_ok :
    ∀ (from_value : String) (cache : List (String × ℤ)) (now : ℤ)
      (to_number body : String) (gw : GatewayOutcome),
      ((is_duplicate cache now to_number body).1 = true →
        (send_sms from_value cache now to_number body gw).1.success = true ∧
        (send_sms from_value cache now to_number body gw).1.message_sid
          = some "DUPLICATE_BLOCKED" ∧
        (send_sms from_value cache now to_number body gw).1.status
          = some "duplicate_blocked") ∧
      (∀ code msg, gw = .twilioError code msg →
        (is_duplicate cache now to_number body).1 = false →
        (send_sms from_value cache now to_number body gw).1.success = false ∧
        (send_sms from_value cache now to_number body gw).1.error_message
          = some msg ∧
        (send_sms from_value cache now to_number body gw).1.error_code
          = code ∧
        (send_sms from_value cache now to_number body gw).1.message_sid
          = none) ∧
      (∀ msg, gw = .unexpectedError msg →
        (is_duplicate cache now to_number body).1 = false →
        (send_sms from_value cache now to_number body gw).1.success = false ∧
        (send_sms from_value cache now to_number body gw).1.error_message
          = some msg ∧
        (send_sms from_value cache now to_number body gw).1.message_sid
          = none) := by
  intro from_value cache now to_number body gw
  refine ⟨?_, ?_, ?_⟩
  · intro hdup
    simp [send_sms, hdup]
  · intro code msg hgw hdup
    subst hgw
    simp [send_sms, hdup]
  · intro msg hgw hdup
    subst hgw
    simp [send_sms, hdup]

/-- Witness for C10: a duplicate-blocked call, a `TwilioException` and
an unexpected exception, each at concrete inputs. -/
theorem C10_send_sms_witness :
    (send_sms "+15550000000" [("+15551234567:hi", 0)] 1 "+15551234567" "hi"
      (.ok sampleGwMessage)).1.message_sid = some "DUPLICATE_BLOCKED" ∧
    (send_sms "+15550000000" [] 0 "+15551234567" "hi"
      (.twilioError (some "21211") "bad number")).1.success = false ∧
    (send_sms "+15550000000" [] 0 "+15551234567" "hi"
      (.unexpectedError "boom")).1.error_message = some "boom" :=
  ⟨((C10_send_sms_ok "+15550000000" [("+15551234567:hi", 0)] 1
      "+15551234567" "hi" (.ok sampleGwMessage)).1 (by decide)).2.1,
   ((C10_send_sms_ok "+15550000000" [] 0 "+15551234567" "hi"
      (.twilioError (some "21211") "bad number")).2.1 (some "21211")
      "bad number" rfl (by decide)).1,
   (((C10_send_sms_ok "+15550000000" [] 0 "+15551234567" "hi"
      (.unexpectedError "boom")).2.2 "boom" rfl (by decide)).2).1⟩

/-! ## The batch loop: shared lemmas for C1, C2 and C8 -/

/-- Processing one recipient never touches the job table (only the
per-batch and terminal updates do). -/
theorem processRecipient_jobs (cfg : RunConfig) (template : String)
    (st : EngineState) (now : ℤ) (r : Recipient) (ev : RecipEvent) :
    (processRecipient cfg template st now r ev).db.jobs = st.db.jobs := by
  cases ev with
  | raises msg => rfl
  | proceed gw =>
      simp only [processRecipient]
      repeat' split
      all_goals rfl

/-- A job-row update keeps a row with the looked-for id present, as
long as the update preserves ids. -/
theorem updateJobIn_exists {jobs : List JobRecord} {jid : String}
    (jid₁ : String) (f : JobRecord → JobRecord)
    (hf : ∀ j, (f j).job_id = j.job_id)
    (h : ∃ j ∈ jobs, j.job_id = jid) :
    ∃ j ∈ updateJobIn jobs jid₁ f, j.job_id = jid := by
  obtain ⟨j, hj, hid⟩ := h
  refine ⟨if j.job_id = jid₁ then f j else j, List.mem_map_of_mem _ hj, ?_⟩
  by_cases hj₁ : j.job_id = jid₁
  · rw [if_pos hj₁, hf, hid]
  · rw [if_neg hj₁]
    exact hid

/-- The image of a row with the updated id sits in the updated table. -/
theorem updateJobIn_mem_image {jobs : List JobRecord} {jid : String}
    (f : JobRecord → JobRecord) (h : ∃ j ∈ jobs, j.job_id = jid) :
    ∃ j₀, j₀ ∈ jobs ∧ j₀.job_id = jid ∧ f j₀ ∈ updateJobIn jobs jid f := by
  obtain ⟨j, hj, hid⟩ := h
  refine ⟨j, hj, hid, ?_⟩
  have himg : (fun j => if j.job_id = jid then f j else j) j = f j :=
    if_pos hid
  rw [← himg]
  exact List.mem_map_of_mem _ hj

/-- The whole batch loop keeps a row with the job id present. -/
theorem runLoop_exists (cfg : RunConfig) (template jid : String) (bsz : ℕ)
    (times : ℕ → ℤ) (evs : ℕ → RecipEvent) :
    ∀ (rs : List Recipient) (k : ℕ) (st : EngineState),
      (∃ j ∈ st.db.jobs, j.job_id = jid) →
      ∃ j ∈ (runLoop cfg template jid bsz times evs k st rs).db.jobs,
        j.job_id = jid := by
  intro rs
  induction rs with
  | nil => intro k st h; exact h
  | cons r rest ih =>
      intro k st h
      have h₁ : ∃ j ∈
          (processRecipient cfg template st (times k) r (evs k)).db.jobs,
          j.job_id = jid := by
        rw [processRecipient_jobs]
        exact h
      simp only [runLoop]
      by_cases hb : (k + 1) % bsz = 0 ∨ rest = []
      · rw [if_pos hb]
        exact ih (k + 1) _ (updateJobIn_exists jid _ (fun _ => rfl) h₁)
      · rw [if_neg hb]
        exact ih (k + 1) _ h₁

/-! ## Claim C1 — duplicate-suppressed recipients -/

/-- Counterexample to C1: in the sample run the second, identical
recipient is flagged by the request-layer guard; the run counts it as
sent (`sent_count = 2`) but persists only one message row — the one of
the first send, status `"queued"` — so no record with a
duplicate-suppressed outcome tag exists. -/
theorem C1_duplicate_record_counterexample :
    (is_duplicate_request
      (processRecipient sampleCfg sampleTemplate sampleState 0
        sampleRecipient (.proceed (.ok sampleGwMessage))).reqCache 1
      (format_phone_number sampleCfg.lib sampleRecipient.phone_number)
      (personalize_message sampleTemplate sampleRecipient)
      "bulk_sms_background").1 = true ∧
    sampleRun.sent_count = 2 ∧
    sampleRun.failed_count = 0 ∧
    sampleRun.db.messages.length = 1 ∧
    (sampleRun.db.messages.all (fun m => decide (m.status = "queued")))
      = true := by decide

/-- C1 amended: a recipient the request-layer guard flags as duplicate
is counted toward `sent_count` (not `failed_count`) with no gateway
interaction — the transport cache is untouched and the outcome is
independent of the gateway — and NO message-attempt record is
persisted for it: the processing state changes only by the sent
counter. -/
theorem C1_duplicate_suppressed_ok :
    ∀ (cfg : RunConfig) (template : String) (st : EngineState) (now : ℤ)
      (r : Recipient) (gw : GatewayOutcome),
      cfg.checkerAvailable = true →
      (is_duplicate_request st.reqCache now
        (format_phone_number cfg.lib r.phone_number)
        (personalize_message template r) "bulk_sms_background").1 = true →
      processRecipient cfg template st now r (.proceed gw)
        = { st with sent_count := st.sent_count + 1 } := by
  intro cfg template st now r gw hchk hdup
  have hstate := is_duplicate_request_true_state hdup
  simp only [processRecipient, hchk, if_true, hdup, hstate]

/-- Witness for the amended C1: with the sample key already cached at
time 0, the call at time 1 is flagged and only the sent counter
moves. -/
theorem C1_duplicate_suppressed_witness :
    processRecipient sampleCfg sampleTemplate sampleDupState 1
      sampleRecipient (.proceed (.ok sampleGwMessage))
      = { sampleDupState with sent_count := sampleDupState.sent_count + 1 } :=
  C1_duplicate_suppressed_ok sampleCfg sampleTemplate sampleDupState 1
    sampleRecipient (.ok sampleGwMessage) rfl (by decide)

/-! ## Claim C2 — completion despite per-recipient failures -/

/-- C2: with a service handle available the loop always terminates with
the job marked `"completed"` and the completion time stamped, whatever
the per-recipient outcomes; a gateway failure returned for a recipient
adds a failed message row, bumps only `failed_count` and touches
neither the job table nor the sent counter; a raised per-recipient
exception lands in the loop's handler with the same accounting. -/
theorem C2_completion_ok :
    (∀ (cfg : RunConfig) (jid : String) (recipients : List Recipient)
      (template : String) (times : ℕ → ℤ) (evs : ℕ → RecipEvent)
      (tEnd : ℤ) (st₀ : EngineState),
      cfg.serviceAvailable = true →
      (∃ j ∈ st₀.db.jobs, j.job_id = jid) →
      ∃ j ∈ (send_bulk_sms cfg jid recipients template times evs tEnd
          st₀).db.jobs,
        j.job_id = jid ∧ j.status = "completed" ∧
        j.completed_at = some tEnd) ∧
    (∀ (cfg : RunConfig) (template : String) (st : EngineState) (now : ℤ)
      (r : Recipient) (code : Option String) (msg : String),
      cfg.checkerAvailable = true →
      (is_duplicate_request st.reqCache now
        (format_phone_number cfg.lib r.phone_number)
        (personalize_message template r) "bulk_sms_background").1 = false →
      (is_duplicate st.transCache now
        (format_phone_number cfg.lib r.phone_number)
        (personalize_message template r)).1 = false →
      (processRecipient cfg template st now r
          (.proceed (.twilioError code msg))).sent_count = st.sent_count ∧
      (processRecipient cfg template st now r
          (.proceed (.twilioError code msg))).failed_count
        = st.failed_count + 1 ∧
      (processRecipient cfg template st now r
          (.proceed (.twilioError code msg))).db.messages
        = st.db.messages ++
          [{ message_sid := none
             from_number := ""
             to_number := format_phone_number cfg.lib r.phone_number
             message_body := personalize_message template r
             status := "failed"
             direction := "outbound"
             cost := none
             error_code := code
             error_message := some msg }] ∧
      (processRecipient cfg template st now r
          (.proceed (.twilioError code msg))).db.jobs = st.db.jobs) ∧
    (∀ (cfg : RunConfig) (template : String) (st : EngineState) (now : ℤ)
      (r : Recipient) (msg : String),
      (processRecipient cfg template st now r (.raises msg)).sent_count
        = st.sent_count ∧
      (processRecipient cfg template st now r (.raises msg)).failed_count
        = st.failed_count + 1 ∧
      (processRecipient cfg template st now r (.raises msg)).db.messages
        = st.db.messages ++ [recordOfRaise r template msg] ∧
      (processRecipient cfg template st now r (.raises msg)).db.jobs
        = st.db.jobs) := by
  refine ⟨?_, ?_, ?_⟩
  · intro cfg jid recipients template times evs tEnd st₀ hsvc hex
    simp only [send_bulk_sms, hsvc, Bool.true_eq_false, if_false]
    obtain ⟨j₀, _, hid, hmem⟩ := updateJobIn_mem_image
      (fun j => { j with status := "completed", completed_at := some tEnd })
      (runLoop_exists cfg template jid (batchSize recipients.length) times
        evs recipients 0 st₀ hex)
    exact ⟨_, hmem, hid, rfl, rfl⟩
  · intro cfg template st now r code msg hchk hreq htrans
    simp only [processRecipient, send_sms, recordOfResult, hchk, if_true,
      hreq, htrans, Bool.false_eq_true, if_false]
    refine ⟨?_, ?_, ?_, ?_⟩ <;> simp
  · intro cfg template st now r msg
    exact ⟨rfl, rfl, rfl, rfl⟩

/-- Witness for C2: a one-recipient run whose only gateway call raises
a `TwilioException` still completes with the completion time stamped,
and the failing recipient adds one failed row and bumps only the
failed counter. -/
theorem C2_completion_witness :
    (∃ j ∈ (send_bulk_sms sampleCfg "job1" [sampleRecipient]
        sampleTemplate sampleTimes sampleEvsFail 10 sampleState).db.jobs,
      j.job_id = "job1" ∧ j.status = "completed" ∧
      j.completed_at = some 10) ∧
    (processRecipient sampleCfg sampleTemplate sampleState 0
      sampleRecipient (.proceed (.twilioError (some "21211")
        "Invalid number"))).failed_count = sampleState.failed_count + 1 :=
  ⟨C2_completion_ok.1 sampleCfg "job1" [sampleRecipient]
      sampleTemplate sampleTimes sampleEvsFail 10 sampleState rfl
      (by decide),
   (C2_completion_ok.2.1 sampleCfg sampleTemplate sampleState 0
      sampleRecipient (some "21211") "Invalid number" rfl (by decide)
      (by decide)).2.1⟩

/-! ## Claim C8 — unavailable gateway handle at job start -/

/-- C8: when no service handle is available (neither passed in nor
found by the module fallback), the job transitions to `"failed"` with
the completion time stamped and no message-attempt row is created —
counters and message table come out exactly as they went in.  (In the
source this runs through a raised `NameError`: the failing branch
references the undefined name `BulkSMSJobStatus`, and the outer handler
performs the terminal update.) -/
theorem C8_no_service_ok :
    ∀ (cfg : RunConfig) (jid : String) (recipients : List Recipient)
      (template : String) (times : ℕ → ℤ) (evs : ℕ → RecipEvent)
      (tEnd : ℤ) (st₀ : EngineState),
      cfg.serviceAvailable = false →
      (send_bulk_sms cfg jid recipients template times evs tEnd
        st₀).db.messages = st₀.db.messages ∧
      (send_bulk_sms cfg jid recipients template times evs tEnd
        st₀).sent_count = st₀.sent_count ∧
      (send_bulk_sms cfg jid recipients template times evs tEnd
        st₀).failed_count = st₀.failed_count ∧
      ((∃ j ∈ st₀.db.jobs, j.job_id = jid) →
        ∃ j ∈ (send_bulk_sms cfg jid recipients template times evs tEnd
            st₀).db.jobs,
          j.job_id = jid ∧ j.status = "failed" ∧
          j.completed_at = some tEnd) := by
  intro cfg jid recipients template times evs tEnd st₀ hsvc
  have hbranch : send_bulk_sms cfg jid recipients template times evs tEnd st₀
      = { st₀ with db := { st₀.db with jobs := (updateJobIn st₀.db.jobs jid
          (fun j => { j with status := "failed", completed_at := some tEnd })) } } := by
    simp [send_bulk_sms, hsvc]
  rw [hbranch]
  refine ⟨rfl, rfl, rfl, ?_⟩
  intro hex
  obtain ⟨j₀, _, hid, hmem⟩ := updateJobIn_mem_image
    (fun j => { j with status := "failed", completed_at := some tEnd }) hex
  exact ⟨_, hmem, hid, rfl, rfl⟩

/-- Witness for C8: the sample job with the service handle absent ends
`"failed"` at the stamped time with the message table untouched. -/
theorem C8_no_service_witness :
    (send_bulk_sms sampleCfgNoSvc "job1" [sampleRecipient] sampleTemplate
      sampleTimes sampleEvs 10 sampleState).db.messages
      = sampleState.db.messages ∧
    (∃ j ∈ (send_bulk_sms sampleCfgNoSvc "job1" [sampleRecipient]
        sampleTemplate sampleTimes sampleEvs 10 sampleState).db.jobs,
      j.job_id = "job1" ∧ j.status = "failed" ∧ j.completed_at = some 10) :=
  ⟨(C8_no_service_ok sampleCfgNoSvc "job1" [sampleRecipient]
      sampleTemplate sampleTimes sampleEvs 10 sampleState rfl).1,
   (C8_no_service_ok sampleCfgNoSvc "job1" [sampleRecipient]
      sampleTemplate sampleTimes sampleEvs 10 sampleState rfl).2.2.2
      (by decide)⟩

end SmsHub
